import Mathlib

/-!
# TokenStore: formalisation of the behavioural contract

The repository ships the conformance test suite for `TokenStore`
implementations (`src/lib/tokenstore.js`).  The store implementation itself is
not part of the repository, so the operations below are modelled from the
specification (sections 3, 4 and 7) and from the behaviour the test suite
asserts; each such definition says so in its doc comment.

Time is an explicit `Nat` parameter (milliseconds of wall-clock time) passed
to every operation, mirroring the lazy, comparison-at-authentication-time
expiry model.  JavaScript's distinction between `undefined` and `null` in
callback arguments is kept via the `JsVal` type.
-/

namespace TokenStore

/-- A JavaScript value as it appears in a callback argument position:
`undefined` (argument absent), `null`, or a string. -/
inductive JsVal where
  | undefined
  | null
  | str (s : String)
deriving DecidableEq, Repr

/-- Modelled from the spec: the `TokenRecord` of section 3 (the implementation
is absent from the repository; only its conformance tests are present).
`referrer = none` records a null/omitted referrer. -/
structure TokenRecord where
  token : String
  expiresAt : Nat
  referrer : Option String
deriving DecidableEq, Repr

/-- Modelled from the spec: the store state, a mapping from `uid` to at most
one `TokenRecord`, realised as an association list keyed by `uid`. -/
structure Store where
  records : List (String × TokenRecord)
deriving DecidableEq, Repr

/-- A fresh, empty store. -/
def Store.emptyStore : Store := ⟨[]⟩

/-- The record currently held for `uid`, if any. -/
def Store.lookup (s : Store) (uid : String) : Option TokenRecord :=
  s.records.lookup uid

/-- `length()`: the number of `uid`s currently holding a record. -/
def Store.length (s : Store) : Nat :=
  s.records.length

/-- The keys of the store are pairwise distinct (invariant I1). -/
def Store.WF (s : Store) : Prop :=
  (s.records.map Prod.fst).Nodup

instance (s : Store) : Decidable s.WF := by
  unfold Store.WF; infer_instance

/-- The synchronous rejection of a call whose required arguments are
missing or empty. -/
inductive ValidationError where
  | mk
deriving DecidableEq, Repr

/-- The triple of arguments an `authenticate` continuation receives. -/
structure AuthCallback where
  err : JsVal
  valid : Bool
  ret_ref : JsVal
deriving DecidableEq, Repr

/-- Modelled from the spec: `storeOrUpdate(token, uid, ttl, referrer, cb)`
(section 4.1).  Throws a `ValidationError` synchronously when `token`, `uid`
or `ttl` is missing/empty or no continuation is supplied; otherwise wholesale
replaces the record for `uid`, setting `expiresAt := now + ttl`, and fires the
continuation with no arguments (error channel `undefined`). -/
def storeOrUpdate (s : Store) (token uid : String) (ttl : Option Nat)
    (referrer : Option String) (hasCallback : Bool) (now : Nat) :
    Except ValidationError (JsVal × Store) :=
  match ttl with
  | none => .error .mk
  | some t =>
      if token.isEmpty ∨ uid.isEmpty ∨ hasCallback = false then
        .error .mk
      else
        .ok (.undefined,
          ⟨(uid, ⟨token, now + t, referrer⟩) ::
            s.records.filter (fun p => p.1 ≠ uid)⟩)

/-- Modelled from the spec: `authenticate(token, uid, cb)` (section 4.1,
invariant I3).  Throws a `ValidationError` synchronously when `token` or `uid`
is missing/empty or no continuation is supplied.  Otherwise the record for
`uid` is looked up; the call is valid only if the record exists, its token
equals the presented token exactly, and `now` is strictly before `expiresAt`.
On validity the continuation receives `(undefined, true, referrer)` with a
null/omitted referrer normalised to `""`; otherwise `(undefined, false,
undefined)`.  The store is returned unchanged: authentication never consumes
or mutates the record. -/
def authenticate (s : Store) (token uid : String)
    (hasCallback : Bool) (now : Nat) :
    Except ValidationError (AuthCallback × Store) :=
  if token.isEmpty ∨ uid.isEmpty ∨ hasCallback = false then
    .error .mk
  else
    match s.lookup uid with
    | none => .ok (⟨.undefined, false, .undefined⟩, s)
    | some r =>
        if r.token = token ∧ now < r.expiresAt then
          .ok (⟨.undefined, true, .str (r.referrer.getD "")⟩, s)
        else
          .ok (⟨.undefined, false, .undefined⟩, s)

/-- Modelled from the spec: `invalidateUser(uid, cb)` (section 4.1).  Throws a
`ValidationError` synchronously when `uid` is missing/empty or no continuation
is supplied; otherwise removes the record for `uid` if present (a no-op when
absent) and fires the continuation with an `undefined` error channel. -/
def invalidateUser (s : Store) (uid : String) (hasCallback : Bool) :
    Except ValidationError (JsVal × Store) :=
  if uid.isEmpty ∨ hasCallback = false then
    .error .mk
  else
    .ok (.undefined, ⟨s.records.filter (fun p => p.1 ≠ uid)⟩)

/-- Modelled from the spec: `clear(cb)` (section 4.1).  Throws a
`ValidationError` synchronously when no continuation is supplied; otherwise
removes all records and fires the continuation with an `undefined` error
channel. -/
def clear (s : Store) (hasCallback : Bool) :
    Except ValidationError (JsVal × Store) :=
  if hasCallback = false then
    .error .mk
  else
    .ok (.undefined, ⟨[]⟩)

/-! ## Helper lemmas -/

instance {ε α : Type} [DecidableEq ε] [DecidableEq α] :
    DecidableEq (Except ε α) := fun
  | .error a, .error b =>
      if h : a = b then .isTrue (by rw [h]) else
        .isFalse (fun hc => h (Except.error.injEq .. ▸ hc))
  | .ok a, .ok b =>
      if h : a = b then .isTrue (by rw [h]) else
        .isFalse (fun hc => h (Except.ok.injEq .. ▸ hc))
  | .error _, .ok _ => .isFalse (fun hc => Except.noConfusion hc)
  | .ok _, .error _ => .isFalse (fun hc => Except.noConfusion hc)

theorem filter_ne_lookup_self (l : List (String × TokenRecord)) (uid : String) :
    (l.filter (fun p => p.1 ≠ uid)).lookup uid = none := by
  induction l with
  | nil => rfl
  | cons p l ih =>
      obtain ⟨k, v⟩ := p
      by_cases h : k = uid
      · simpa [List.filter_cons, h] using ih
      · simpa [List.filter_cons, h, List.lookup_cons,
          beq_false_of_ne (Ne.symm h)] using ih

theorem filter_ne_lookup_other (l : List (String × TokenRecord)) (uid uid' : String)
    (h : uid' ≠ uid) :
    (l.filter (fun p => p.1 ≠ uid)).lookup uid' = l.lookup uid' := by
  induction l with
  | nil => rfl
  | cons p l ih =>
      obtain ⟨k, v⟩ := p
      by_cases hp : k = uid
      · simpa [List.filter_cons, hp, List.lookup_cons, beq_false_of_ne h]
          using ih
      · by_cases hp' : uid' = k
        · subst hp'
          simp [List.filter_cons, hp, List.lookup_cons, beq_self_eq_true]
        · simpa [List.filter_cons, hp, List.lookup_cons, beq_false_of_ne hp']
            using ih

theorem filter_ne_eq_self_of_lookup_none (l : List (String × TokenRecord))
    (uid : String) (h : l.lookup uid = none) :
    l.filter (fun p => p.1 ≠ uid) = l := by
  induction l with
  | nil => rfl
  | cons p l ih =>
      obtain ⟨k, v⟩ := p
      by_cases hp : uid = k
      · subst hp
        simp [List.lookup_cons, beq_self_eq_true] at h
      · rw [List.lookup_cons] at h
        rw [beq_false_of_ne hp] at h
        rw [List.filter_cons, if_pos (by simpa using Ne.symm hp), ih h]

theorem lookup_eq_none_of_not_mem_keys (l : List (String × TokenRecord))
    (uid : String) (h : uid ∉ l.map Prod.fst) : l.lookup uid = none := by
  induction l with
  | nil => rfl
  | cons p l ih =>
      obtain ⟨k, v⟩ := p
      simp only [List.map_cons, List.mem_cons, not_or] at h
      rw [List.lookup_cons, beq_false_of_ne h.1]
      exact ih h.2

theorem length_filter_ne_succ (l : List (String × TokenRecord)) (uid : String) :
    (l.map Prod.fst).Nodup → (l.lookup uid).isSome →
    (l.filter (fun p => p.1 ≠ uid)).length + 1 = l.length := by
  induction l with
  | nil =>
      intro _ hmem
      simp [List.lookup] at hmem
  | cons p l ih =>
      intro hnd hmem
      obtain ⟨k, v⟩ := p
      simp only [List.map_cons, List.nodup_cons] at hnd
      by_cases hp : uid = k
      · subst hp
        rw [List.filter_cons, if_neg (by simp)]
        rw [filter_ne_eq_self_of_lookup_none l uid
          (lookup_eq_none_of_not_mem_keys l uid hnd.1)]
        simp
      · rw [List.lookup_cons, beq_false_of_ne hp] at hmem
        rw [List.filter_cons, if_pos (by simpa using Ne.symm hp)]
        have := ih hnd.2 hmem
        simp only [List.length_cons]
        omega

theorem except_ok_pair_inj {ε α β : Type} {a a' : α} {b b' : β}
    (h : (Except.ok (a, b) : Except ε (α × β)) = .ok (a', b')) :
    a = a' ∧ b = b' := by
  have hp := Except.ok.inj h
  exact ⟨congrArg Prod.fst hp, congrArg Prod.snd hp⟩

theorem storeOrUpdate_ok_inv {s s' : Store} {e : JsVal} {token uid : String}
    {ttl : Option Nat} {referrer : Option String} {cb : Bool} {now : Nat}
    (h : storeOrUpdate s token uid ttl referrer cb now = .ok (e, s')) :
    token ≠ "" ∧ uid ≠ "" ∧ ttl ≠ none ∧ cb = true := by
  rcases ttl with - | t
  · exact absurd h (by simp [storeOrUpdate])
  · rw [storeOrUpdate] at h
    by_cases hcond : token.isEmpty = true ∨ uid.isEmpty = true ∨ cb = false
    · rw [if_pos hcond] at h
      exact Except.noConfusion h
    · simp only [String.isEmpty_iff, not_or] at hcond
      exact ⟨hcond.1, hcond.2.1, by simp, by simpa using hcond.2.2⟩

theorem storeOrUpdate_ok_elim {s s' : Store} {e : JsVal} {token uid : String}
    {t : Nat} {referrer : Option String} {cb : Bool} {now : Nat}
    (h : storeOrUpdate s token uid (some t) referrer cb now = .ok (e, s')) :
    e = .undefined ∧
      s' = ⟨(uid, ⟨token, now + t, referrer⟩) ::
        s.records.filter (fun p => p.1 ≠ uid)⟩ := by
  obtain ⟨htoken, huid, -, hcb⟩ := storeOrUpdate_ok_inv h
  rw [storeOrUpdate, if_neg] at h
  · obtain ⟨h1, h2⟩ := Prod.mk.injEq .. ▸ Except.ok.injEq .. ▸ h
    exact ⟨h1.symm, h2.symm⟩
  · simp [String.isEmpty_iff, htoken, huid, hcb]

theorem authenticate_eq (s : Store) (token uid : String) (now : Nat)
    (htoken : token ≠ "") (huid : uid ≠ "") :
    authenticate s token uid true now =
      match s.lookup uid with
      | none => .ok (⟨.undefined, false, .undefined⟩, s)
      | some r =>
          if r.token = token ∧ now < r.expiresAt then
            .ok (⟨.undefined, true, .str (r.referrer.getD "")⟩, s)
          else
            .ok (⟨.undefined, false, .undefined⟩, s) := by
  rw [authenticate, if_neg (by simp [String.isEmpty_iff, htoken, huid])]

theorem lookup_cons_self (l : List (String × TokenRecord)) (uid : String)
    (r : TokenRecord) :
    Store.lookup ⟨(uid, r) :: l⟩ uid = some r := by
  rw [Store.lookup, List.lookup_cons, beq_self_eq_true]

theorem authenticate_hit (l : List (String × TokenRecord)) (token uid : String)
    (exp now : Nat) (referrer : Option String)
    (htoken : token ≠ "") (huid : uid ≠ "") (hnow : now < exp) :
    authenticate ⟨(uid, ⟨token, exp, referrer⟩) :: l⟩ token uid true now =
      .ok (⟨.undefined, true, .str (referrer.getD "")⟩,
        ⟨(uid, ⟨token, exp, referrer⟩) :: l⟩) := by
  rw [authenticate_eq _ _ _ _ htoken huid, lookup_cons_self]
  simp [hnow]

theorem authenticate_stale (l : List (String × TokenRecord)) (token uid : String)
    (r : TokenRecord) (now : Nat)
    (htoken : token ≠ "") (huid : uid ≠ "")
    (hmiss : r.token ≠ token ∨ r.expiresAt ≤ now) :
    authenticate ⟨(uid, r) :: l⟩ token uid true now =
      .ok (⟨.undefined, false, .undefined⟩, ⟨(uid, r) :: l⟩) := by
  rw [authenticate_eq _ _ _ _ htoken huid, lookup_cons_self]
  have hcond : ¬(r.token = token ∧ now < r.expiresAt) := by
    rcases hmiss with h1 | h1
    · exact fun hc => h1 hc.1
    · exact fun hc => absurd hc.2 (by omega)
  simp [hcond]

theorem authenticate_ok_err {s s2 : Store} {token uid : String} {cb : Bool}
    {now : Nat} {a : AuthCallback}
    (h : authenticate s token uid cb now = .ok (a, s2)) :
    a.err = .undefined ∧ s2 = s := by
  rw [authenticate] at h
  by_cases hcond : token.isEmpty = true ∨ uid.isEmpty = true ∨ cb = false
  · rw [if_pos hcond] at h
    exact absurd h (fun hc => Except.noConfusion hc)
  · rw [if_neg hcond] at h
    split at h
    · have hp := Except.ok.inj h
      exact ⟨(congrArg (fun q => q.1.err) hp).symm, (congrArg Prod.snd hp).symm⟩
    · split at h
      all_goals
        have hp := Except.ok.inj h
        exact ⟨(congrArg (fun q => q.1.err) hp).symm, (congrArg Prod.snd hp).symm⟩

theorem invalidateUser_ok_elim {s s' : Store} {e : JsVal} {uid : String}
    {cb : Bool} (h : invalidateUser s uid cb = .ok (e, s')) :
    e = .undefined ∧ s' = ⟨s.records.filter (fun p => p.1 ≠ uid)⟩ := by
  rw [invalidateUser] at h
  by_cases hcond : uid.isEmpty = true ∨ cb = false
  · rw [if_pos hcond] at h
    exact absurd h (fun hc => Except.noConfusion hc)
  · rw [if_neg hcond] at h
    obtain ⟨h1, h2⟩ := except_ok_pair_inj h
    exact ⟨h1.symm, h2.symm⟩

theorem clear_ok_elim {s s' : Store} {e : JsVal} {cb : Bool}
    (h : clear s cb = .ok (e, s')) : e = .undefined ∧ s' = ⟨[]⟩ := by
  rw [clear] at h
  by_cases hcond : cb = false
  · rw [if_pos hcond] at h
    exact absurd h (fun hc => Except.noConfusion hc)
  · rw [if_neg hcond] at h
    obtain ⟨h1, h2⟩ := except_ok_pair_inj h
    exact ⟨h1.symm, h2.symm⟩

theorem storeOrUpdate_preserves_WF {s s' : Store} {e : JsVal}
    {token uid : String} {t : Nat} {referrer : Option String} {now : Nat}
    (hwf : s.WF)
    (h : storeOrUpdate s token uid (some t) referrer true now = .ok (e, s')) :
    s'.WF := by
  obtain ⟨-, hs'⟩ := storeOrUpdate_ok_elim h
  subst hs'
  rw [Store.WF, List.map_cons, List.nodup_cons]
  constructor
  · intro hmem
    obtain ⟨p, hp, hkey⟩ := List.mem_map.mp hmem
    have := List.of_mem_filter hp
    simp [hkey] at this
  · exact List.Nodup.sublist
      (List.Sublist.map Prod.fst (List.filter_sublist s.records)) hwf

/-! ## Claim theorems -/

/-- C2: for every valid tuple `(token, uid, ttl, referrer)`, a `storeOrUpdate`
followed immediately by `authenticate(token, uid)` completes with
`valid = true` and the stored referrer; a null/omitted referrer
(`referrer = none`) comes back as the empty string (via `Option.getD`). -/
theorem C2_store_then_authenticate (s s' : Store) (e : JsVal)
    (token uid : String) (ttl now : Nat) (referrer : Option String)
    (httl : 0 < ttl)
    (h : storeOrUpdate s token uid (some ttl) referrer true now = .ok (e, s')) :
    authenticate s' token uid true now =
      .ok (⟨.undefined, true, .str (referrer.getD "")⟩, s') := by
  obtain ⟨htoken, huid, -, -⟩ := storeOrUpdate_ok_inv h
  obtain ⟨-, hs'⟩ := storeOrUpdate_ok_elim h
  subst hs'
  rw [authenticate, if_neg]
  · simp [Store.lookup, List.lookup]
    omega
  · simp [String.isEmpty_iff, htoken, huid]

/-- C2 witness: a concrete store/authenticate round trip with a null referrer
comes back valid with the empty-string referrer. -/
theorem C2_store_then_authenticate_witness :
    authenticate ⟨[("alice", ⟨"tok", 60000, none⟩)]⟩ "tok" "alice" true 0 =
      .ok (⟨.undefined, true, .str ""⟩, ⟨[("alice", ⟨"tok", 60000, none⟩)]⟩) :=
  C2_store_then_authenticate Store.emptyStore
    ⟨[("alice", ⟨"tok", 60000, none⟩)]⟩ .undefined "tok" "alice" 60000 0 none
    (by decide) (by decide)

/-- C1: a successful `storeOrUpdate` of a new token for a `uid` that already
holds a record completely replaces the prior record: afterwards the old token
no longer authenticates (`valid = false`, no referrer) at any time — even
before the old ttl would have elapsed — while the new token authenticates
with the newly stored referrer at any time before its own expiry, in
particular after the old token's ttl has elapsed. -/
theorem C1_replacement_invalidates_old_token (s s1 s2 : Store) (e1 e2 : JsVal)
    (token1 token2 uid : String) (ttl1 ttl2 t0 t1 t2 : Nat)
    (ref1 ref2 : Option String)
    (hne : token1 ≠ token2)
    (h1 : storeOrUpdate s token1 uid (some ttl1) ref1 true t0 = .ok (e1, s1))
    (h2 : storeOrUpdate s1 token2 uid (some ttl2) ref2 true t1 = .ok (e2, s2)) :
    authenticate s2 token1 uid true t2 =
      .ok (⟨.undefined, false, .undefined⟩, s2) ∧
    (t2 < t1 + ttl2 →
      authenticate s2 token2 uid true t2 =
        .ok (⟨.undefined, true, .str (ref2.getD "")⟩, s2)) := by
  obtain ⟨htok1, huid, -, -⟩ := storeOrUpdate_ok_inv h1
  obtain ⟨htok2, -, -, -⟩ := storeOrUpdate_ok_inv h2
  obtain ⟨-, hs2⟩ := storeOrUpdate_ok_elim h2
  subst hs2
  constructor
  · exact authenticate_stale _ token1 uid _ t2 htok1 huid (Or.inl (Ne.symm hne))
  · intro ht
    exact authenticate_hit _ token2 uid _ t2 ref2 htok2 huid ht

/-- C1 witness: after replacing token `A` (ttl 10, stored at time 0) with
token `B` (ttl 1000, stored at time 5), at time 500 — past `A`'s expiry —
`A` no longer authenticates while `B` still does. -/
theorem C1_replacement_invalidates_old_token_witness :
    authenticate ⟨[("u", ⟨"B", 1005, some "r2"⟩)]⟩ "A" "u" true 500 =
      .ok (⟨.undefined, false, .undefined⟩,
        ⟨[("u", ⟨"B", 1005, some "r2"⟩)]⟩) ∧
    (500 < 5 + 1000 →
      authenticate ⟨[("u", ⟨"B", 1005, some "r2"⟩)]⟩ "B" "u" true 500 =
        .ok (⟨.undefined, true, .str "r2"⟩,
          ⟨[("u", ⟨"B", 1005, some "r2"⟩)]⟩)) :=
  C1_replacement_invalidates_old_token Store.emptyStore
    ⟨[("u", ⟨"A", 10, some "r1"⟩)]⟩ ⟨[("u", ⟨"B", 1005, some "r2"⟩)]⟩
    .undefined .undefined "A" "B" "u" 10 1000 0 5 500
    (some "r1") (some "r2") (by decide) (by decide) (by decide)

/-- C3: after storing `(token, uid)` at time `t0` with time-to-live `ttl`,
authenticating before `t0 + ttl` yields `valid = true` with the stored
referrer, while authenticating after more than `ttl` has elapsed yields
`valid = false` with no referrer; both follow from a passive comparison of the
authentication time against `expiresAt` on the very same unchanged store. -/
theorem C3_expiry_lazy_wall_clock (s s' : Store) (e : JsVal)
    (token uid : String) (ttl t0 tEarly tLate : Nat) (referrer : Option String)
    (h : storeOrUpdate s token uid (some ttl) referrer true t0 = .ok (e, s'))
    (hearly : tEarly < t0 + ttl) (hlate : t0 + ttl < tLate) :
    authenticate s' token uid true tEarly =
      .ok (⟨.undefined, true, .str (referrer.getD "")⟩, s') ∧
    authenticate s' token uid true tLate =
      .ok (⟨.undefined, false, .undefined⟩, s') := by
  obtain ⟨htoken, huid, -, -⟩ := storeOrUpdate_ok_inv h
  obtain ⟨-, hs'⟩ := storeOrUpdate_ok_elim h
  subst hs'
  constructor
  · exact authenticate_hit _ token uid _ tEarly referrer htoken huid hearly
  · exact authenticate_stale _ token uid _ tLate htoken huid
      (Or.inr (by simp; omega))

/-- C3 witness: token stored at time 0 with ttl 100 authenticates at time 50
and no longer authenticates at time 200. -/
theorem C3_expiry_lazy_wall_clock_witness :
    authenticate ⟨[("u", ⟨"T", 100, some "r"⟩)]⟩ "T" "u" true 50 =
      .ok (⟨.undefined, true, .str "r"⟩, ⟨[("u", ⟨"T", 100, some "r"⟩)]⟩) ∧
    authenticate ⟨[("u", ⟨"T", 100, some "r"⟩)]⟩ "T" "u" true 200 =
      .ok (⟨.undefined, false, .undefined⟩,
        ⟨[("u", ⟨"T", 100, some "r"⟩)]⟩) :=
  C3_expiry_lazy_wall_clock Store.emptyStore ⟨[("u", ⟨"T", 100, some "r"⟩)]⟩
    .undefined "T" "u" 100 0 50 200 (some "r") (by decide) (by decide)
    (by decide)

/-- C4: an `authenticate` call with non-empty `token` and `uid` and a supplied
continuation never signals an error when the presentation is invalid — an
unknown `uid`, a mismatched token (including a token bound to a different
`uid`), or an expired record all complete with an `undefined` error channel,
`valid = false` and an absent (`undefined`) referrer. -/
theorem C4_invalid_presentation_not_error (s : Store) (token uid : String)
    (now : Nat) (htoken : token ≠ "") (huid : uid ≠ "")
    (hinvalid : ∀ r, s.lookup uid = some r →
      r.token ≠ token ∨ r.expiresAt ≤ now) :
    authenticate s token uid true now =
      .ok (⟨.undefined, false, .undefined⟩, s) := by
  rw [authenticate_eq _ _ _ _ htoken huid]
  split
  · rfl
  · rename_i r hlk
    have hmiss := hinvalid r hlk
    have hcond : ¬(r.token = token ∧ now < r.expiresAt) := by
      rcases hmiss with h1 | h1
      · exact fun hc => h1 hc.1
      · exact fun hc => absurd hc.2 (by omega)
    rw [if_neg hcond]

/-- C4 witness: authenticating an unknown `uid` against the empty store
completes without error, with `valid = false` and no referrer. -/
theorem C4_invalid_presentation_not_error_witness :
    authenticate Store.emptyStore "X" "u" true 0 =
      .ok (⟨.undefined, false, .undefined⟩, Store.emptyStore) :=
  C4_invalid_presentation_not_error Store.emptyStore "X" "u" 0 (by decide)
    (by decide) (fun r hr => Option.noConfusion hr)

/-- C5: each operation raises a `ValidationError` synchronously exactly when a
required argument — `token`, `uid` or `ttl` on write, or the continuation —
is missing or empty; the iff holds for every `referrer` (including `none` and
`some ""`), so an empty, null or omitted referrer is never a validation
failure. -/
theorem C5_validation_errors (s : Store) (token uid : String) (ttl : Option Nat)
    (referrer : Option String) (cb : Bool) (now : Nat) :
    (storeOrUpdate s token uid ttl referrer cb now = .error .mk ↔
      token = "" ∨ uid = "" ∨ ttl = none ∨ cb = false) ∧
    (authenticate s token uid cb now = .error .mk ↔
      token = "" ∨ uid = "" ∨ cb = false) ∧
    (invalidateUser s uid cb = .error .mk ↔ uid = "" ∨ cb = false) ∧
    (clear s cb = .error .mk ↔ cb = false) := by
  refine ⟨?_, ?_, ?_, ?_⟩
  · rcases ttl with - | t
    · simp [storeOrUpdate]
    · rw [storeOrUpdate]
      by_cases hcond : token.isEmpty = true ∨ uid.isEmpty = true ∨ cb = false
      · rw [if_pos hcond]
        simpa [String.isEmpty_iff] using hcond
      · rw [if_neg hcond]
        simp only [String.isEmpty_iff, not_or] at hcond
        simp [hcond.1, hcond.2.1, hcond.2.2]
  · rw [authenticate]
    by_cases hcond : token.isEmpty = true ∨ uid.isEmpty = true ∨ cb = false
    · rw [if_pos hcond]
      simpa [String.isEmpty_iff] using hcond
    · rw [if_neg hcond]
      simp only [String.isEmpty_iff, not_or] at hcond
      constructor
      · intro hc
        split at hc
        · exact Except.noConfusion hc
        · split at hc <;> exact Except.noConfusion hc
      · intro hc
        rcases hc with hc | hc | hc
        · exact absurd hc hcond.1
        · exact absurd hc hcond.2.1
        · exact absurd hc hcond.2.2
  · rw [invalidateUser]
    by_cases hcond : uid.isEmpty = true ∨ cb = false
    · rw [if_pos hcond]
      simpa [String.isEmpty_iff] using hcond
    · rw [if_neg hcond]
      simp only [String.isEmpty_iff, not_or] at hcond
      simp [hcond.1, hcond.2]
  · rw [clear]
    by_cases hcond : cb = false
    · rw [if_pos hcond]
      simpa using hcond
    · rw [if_neg hcond]
      simp [hcond]

/-- C6 counterexample: the claim as stated quantifies over every pair of
distinct users each holding an active record, without requiring their tokens
to differ.  When both users hold the same token string `T`, presenting user
`u1`'s token against `u2` authenticates successfully (`valid = true`),
contradicting the claimed `valid = false`. -/
theorem C6_counterexample :
    storeOrUpdate Store.emptyStore "T" "u1" (some 100) (some "r1") true 0 =
      .ok (.undefined, ⟨[("u1", ⟨"T", 100, some "r1"⟩)]⟩) ∧
    storeOrUpdate ⟨[("u1", ⟨"T", 100, some "r1"⟩)]⟩ "T" "u2" (some 100)
        (some "r2") true 0 =
      .ok (.undefined, ⟨[("u2", ⟨"T", 100, some "r2"⟩),
        ("u1", ⟨"T", 100, some "r1"⟩)]⟩) ∧
    authenticate ⟨[("u2", ⟨"T", 100, some "r2"⟩),
        ("u1", ⟨"T", 100, some "r1"⟩)]⟩ "T" "u2" true 50 =
      .ok (⟨.undefined, true, .str "r2"⟩,
        ⟨[("u2", ⟨"T", 100, some "r2"⟩), ("u1", ⟨"T", 100, some "r1"⟩)]⟩) :=
  ⟨by decide, by decide, by decide⟩

/-- C6 (amended): for distinct users `uid1` and `uid2` each holding their own
active record, and whose tokens differ as strings, presenting `uid1`'s token
against `uid2` returns `valid = false` with no error and no referrer. -/
theorem C6_cross_uid_isolation (s s1 s2 : Store) (e1 e2 : JsVal)
    (token1 token2 uid1 uid2 : String) (ttl1 ttl2 t0 t1 now : Nat)
    (ref1 ref2 : Option String)
    (huid : uid1 ≠ uid2) (htok : token1 ≠ token2)
    (h1 : storeOrUpdate s token1 uid1 (some ttl1) ref1 true t0 = .ok (e1, s1))
    (h2 : storeOrUpdate s1 token2 uid2 (some ttl2) ref2 true t1 = .ok (e2, s2)) :
    authenticate s2 token1 uid2 true now =
      .ok (⟨.undefined, false, .undefined⟩, s2) := by
  obtain ⟨htok1, -, -, -⟩ := storeOrUpdate_ok_inv h1
  obtain ⟨-, huid2, -, -⟩ := storeOrUpdate_ok_inv h2
  obtain ⟨-, hs2⟩ := storeOrUpdate_ok_elim h2
  subst hs2
  exact authenticate_stale _ token1 uid2 _ now htok1 huid2
    (Or.inl (Ne.symm htok))

/-- C6 witness: with `u1` holding token `A` and `u2` holding token `B`,
presenting `A` against `u2` is rejected without error. -/
theorem C6_cross_uid_isolation_witness :
    authenticate ⟨[("u2", ⟨"B", 100, some "r2"⟩),
        ("u1", ⟨"A", 100, some "r1"⟩)]⟩ "A" "u2" true 50 =
      .ok (⟨.undefined, false, .undefined⟩,
        ⟨[("u2", ⟨"B", 100, some "r2"⟩), ("u1", ⟨"A", 100, some "r1"⟩)]⟩) :=
  C6_cross_uid_isolation Store.emptyStore ⟨[("u1", ⟨"A", 100, some "r1"⟩)]⟩
    ⟨[("u2", ⟨"B", 100, some "r2"⟩), ("u1", ⟨"A", 100, some "r1"⟩)]⟩
    .undefined .undefined "A" "B" "u1" "u2" 100 100 0 0 50
    (some "r1") (some "r2") (by decide) (by decide) (by decide) (by decide)

/-- C7: `invalidateUser(uid)` completes without error with an `undefined`
error channel; when `uid` holds no record the store is unchanged (idempotent
no-op), and in every case any subsequent `authenticate` for that `uid`
returns `valid = false` with no referrer. -/
theorem C7_invalidateUser_removes_record (s : Store) (uid token : String)
    (now : Nat) (huid : uid ≠ "") (htoken : token ≠ "") :
    invalidateUser s uid true =
      .ok (.undefined, ⟨s.records.filter (fun p => p.1 ≠ uid)⟩) ∧
    (s.lookup uid = none →
      (⟨s.records.filter (fun p => p.1 ≠ uid)⟩ : Store) = s) ∧
    authenticate ⟨s.records.filter (fun p => p.1 ≠ uid)⟩ token uid true now =
      .ok (⟨.undefined, false, .undefined⟩,
        ⟨s.records.filter (fun p => p.1 ≠ uid)⟩) := by
  refine ⟨?_, ?_, ?_⟩
  · rw [invalidateUser, if_neg (by simp [String.isEmpty_iff, huid])]
  · intro hnone
    exact congrArg Store.mk (filter_ne_eq_self_of_lookup_none _ _ hnone)
  · rw [authenticate_eq _ _ _ _ htoken huid]
    have hnone :
        (⟨s.records.filter (fun p => p.1 ≠ uid)⟩ : Store).lookup uid = none :=
      filter_ne_lookup_self s.records uid
    rw [hnone]

/-- C7 witness: invalidating user `u`, who holds a record, removes it and
makes a subsequent `authenticate` with the very token that was stored return
`valid = false`. -/
theorem C7_invalidateUser_removes_record_witness :
    invalidateUser ⟨[("u", ⟨"T", 100, some "r"⟩)]⟩ "u" true =
      .ok (.undefined, (⟨[]⟩ : Store)) ∧
    ((⟨[("u", ⟨"T", 100, some "r"⟩)]⟩ : Store).lookup "u" = none →
      (⟨[]⟩ : Store) = ⟨[("u", ⟨"T", 100, some "r"⟩)]⟩) ∧
    authenticate (⟨[]⟩ : Store) "T" "u" true 0 =
      .ok (⟨.undefined, false, .undefined⟩, (⟨[]⟩ : Store)) :=
  C7_invalidateUser_removes_record ⟨[("u", ⟨"T", 100, some "r"⟩)]⟩ "u" "T" 0
    (by decide) (by decide)

/-- C8: `length()` counts the distinct `uid`s holding a record: it is 0 on a
fresh store, a `storeOrUpdate` grows it by at most one, re-storing a `uid`
already present (in a well-formed store) leaves it unchanged, it is 0 again
after `clear()`, and `clear()` also succeeds on the already-empty store. -/
theorem C8_length_tracks_distinct_uids (s s' sc : Store) (e ec : JsVal)
    (token uid : String) (ttl now : Nat) (referrer : Option String)
    (h : storeOrUpdate s token uid (some ttl) referrer true now = .ok (e, s'))
    (hc : clear s true = .ok (ec, sc)) :
    Store.emptyStore.length = 0 ∧
    s'.length ≤ s.length + 1 ∧
    (s.WF → (s.lookup uid).isSome = true → s'.length = s.length) ∧
    sc.length = 0 ∧
    clear Store.emptyStore true = .ok (.undefined, Store.emptyStore) := by
  obtain ⟨-, hs'⟩ := storeOrUpdate_ok_elim h
  obtain ⟨-, hsc⟩ := clear_ok_elim hc
  subst hs' hsc
  refine ⟨rfl, ?_, ?_, rfl, rfl⟩
  · show (s.records.filter (fun p => p.1 ≠ uid)).length + 1 ≤
      s.records.length + 1
    have := List.length_filter_le (fun p => decide (p.1 ≠ uid)) s.records
    omega
  · intro hwf hsome
    show (s.records.filter (fun p => p.1 ≠ uid)).length + 1 = s.records.length
    exact length_filter_ne_succ s.records uid hwf hsome

/-- C8 witness: re-storing uid `u` keeps the length at 1, and clearing
returns it to 0. -/
theorem C8_length_tracks_distinct_uids_witness :
    Store.emptyStore.length = 0 ∧
    (⟨[("u", ⟨"B", 100, none⟩)]⟩ : Store).length ≤
      (⟨[("u", ⟨"A", 10, none⟩)]⟩ : Store).length + 1 ∧
    ((⟨[("u", ⟨"A", 10, none⟩)]⟩ : Store).WF →
      ((⟨[("u", ⟨"A", 10, none⟩)]⟩ : Store).lookup "u").isSome = true →
      (⟨[("u", ⟨"B", 100, none⟩)]⟩ : Store).length =
        (⟨[("u", ⟨"A", 10, none⟩)]⟩ : Store).length) ∧
    (⟨[]⟩ : Store).length = 0 ∧
    clear Store.emptyStore true = .ok (.undefined, Store.emptyStore) :=
  C8_length_tracks_distinct_uids ⟨[("u", ⟨"A", 10, none⟩)]⟩
    ⟨[("u", ⟨"B", 100, none⟩)]⟩ ⟨[]⟩ .undefined .undefined "B" "u" 100 0 none
    (by decide) (by decide)

/-- C9: two successive `authenticate(token, uid)` calls on the same unexpired
record — the second performed on the store returned by the first — each
independently return `valid = true` with the same referrer, and each returns
the store unchanged: authentication does not consume or mutate the record. -/
theorem C9_repeated_authentication_idempotent (s s' s1 s2 : Store) (e : JsVal)
    (a1 a2 : AuthCallback) (token uid : String) (ttl t0 t1 t2 : Nat)
    (referrer : Option String)
    (h : storeOrUpdate s token uid (some ttl) referrer true t0 = .ok (e, s'))
    (ht1 : t1 < t0 + ttl) (ht2 : t2 < t0 + ttl)
    (h1 : authenticate s' token uid true t1 = .ok (a1, s1))
    (h2 : authenticate s1 token uid true t2 = .ok (a2, s2)) :
    a1.valid = true ∧ a2.valid = true ∧
    a1.ret_ref = .str (referrer.getD "") ∧ a2.ret_ref = a1.ret_ref ∧
    s1 = s' ∧ s2 = s1 := by
  obtain ⟨htoken, huid, -, -⟩ := storeOrUpdate_ok_inv h
  obtain ⟨-, hs'⟩ := storeOrUpdate_ok_elim h
  subst hs'
  rw [authenticate_hit _ token uid _ t1 referrer htoken huid ht1] at h1
  obtain ⟨ha1, hs1⟩ := except_ok_pair_inj h1
  subst hs1
  rw [authenticate_hit _ token uid _ t2 referrer htoken huid ht2] at h2
  obtain ⟨ha2, hs2⟩ := except_ok_pair_inj h2
  subst hs2
  subst ha1
  subst ha2
  exact ⟨rfl, rfl, rfl, rfl, rfl, rfl⟩

/-- C9 witness: the token stored for `u` authenticates at times 10 and 20,
yielding the same result both times, with the store unchanged. -/
theorem C9_repeated_authentication_idempotent_witness :
    (⟨JsVal.undefined, true, .str ""⟩ : AuthCallback).valid = true ∧
    (⟨JsVal.undefined, true, .str ""⟩ : AuthCallback).valid = true ∧
    (⟨JsVal.undefined, true, .str ""⟩ : AuthCallback).ret_ref = .str "" ∧
    (⟨JsVal.undefined, true, .str ""⟩ : AuthCallback).ret_ref =
      (⟨JsVal.undefined, true, .str ""⟩ : AuthCallback).ret_ref ∧
    (⟨[("u", ⟨"T", 100, none⟩)]⟩ : Store) = ⟨[("u", ⟨"T", 100, none⟩)]⟩ ∧
    (⟨[("u", ⟨"T", 100, none⟩)]⟩ : Store) = ⟨[("u", ⟨"T", 100, none⟩)]⟩ :=
  C9_repeated_authentication_idempotent Store.emptyStore
    ⟨[("u", ⟨"T", 100, none⟩)]⟩ ⟨[("u", ⟨"T", 100, none⟩)]⟩
    ⟨[("u", ⟨"T", 100, none⟩)]⟩ .undefined
    ⟨.undefined, true, .str ""⟩ ⟨.undefined, true, .str ""⟩ "T" "u" 100 0 10 20
    none (by decide) (by decide) (by decide) (by decide) (by decide)

/-- C10: every successful completion of the four operations delivers a
strictly `undefined` error argument to the continuation — and `undefined` is
a different `JsVal` from `null`, so a defined `null` on the success path does
not satisfy the contract. -/
theorem C10_success_error_strictly_undefined (s : Store) (token uid : String)
    (ttl : Option Nat) (referrer : Option String) (cb : Bool) (now : Nat)
    (e1 e3 e4 : JsVal) (a : AuthCallback) (s1 s2 s3 s4 : Store)
    (h1 : storeOrUpdate s token uid ttl referrer cb now = .ok (e1, s1))
    (h2 : authenticate s token uid cb now = .ok (a, s2))
    (h3 : invalidateUser s uid cb = .ok (e3, s3))
    (h4 : clear s cb = .ok (e4, s4)) :
    e1 = .undefined ∧ a.err = .undefined ∧ e3 = .undefined ∧
    e4 = .undefined ∧ JsVal.undefined ≠ JsVal.null := by
  refine ⟨?_, (authenticate_ok_err h2).1, (invalidateUser_ok_elim h3).1,
    (clear_ok_elim h4).1, by decide⟩
  obtain ⟨-, -, httl, -⟩ := storeOrUpdate_ok_inv h1
  rcases ttl with - | t
  · exact absurd rfl httl
  · exact (storeOrUpdate_ok_elim h1).1

/-- C10 witness: concrete successful runs of all four operations each deliver
an `undefined` error argument. -/
theorem C10_success_error_strictly_undefined_witness :
    (JsVal.undefined = .undefined) ∧
    (⟨JsVal.undefined, true, .str ""⟩ : AuthCallback).err = .undefined ∧
    (JsVal.undefined = .undefined) ∧ (JsVal.undefined = .undefined) ∧
    JsVal.undefined ≠ JsVal.null :=
  C10_success_error_strictly_undefined ⟨[("u", ⟨"T", 100, none⟩)]⟩ "T" "u"
    (some 50) none true 0 .undefined .undefined .undefined
    ⟨.undefined, true, .str ""⟩ ⟨[("u", ⟨"T", 50, none⟩)]⟩
    ⟨[("u", ⟨"T", 100, none⟩)]⟩ ⟨[]⟩ ⟨[]⟩
    (by decide) (by decide) (by decide) (by decide)

end TokenStore
